import Mathlib

/-!
# Shopify product export to CSV: row mapper, paginator and start-up

A shallow embedding of `src/app.js`.  JavaScript values that the program only
copies or tests for truthiness are kept as `JsVal`; arrays the program iterates
are Lean lists; a property that may be missing at run time is an `Option`, and
code that can throw returns `Except JsError`.
-/

namespace ShopifyExport

/-! ## JavaScript values -/

/-- Scalar JavaScript values as they come out of a JSON payload, together with
`undefined` (the result of reading a property that is not there).  Numbers are
the integer-valued ones. -/
inductive JsVal where
  | undefined
  | null
  | bool (b : Bool)
  | num (n : Int)
  | str (s : String)
  deriving DecidableEq, Repr, Inhabited

/-- JavaScript truthiness (`ToBoolean`): `undefined`, `null`, `false`, `0` and
the empty string are falsy, everything else is truthy. -/
def JsVal.truthy : JsVal → Bool
  | .undefined => false
  | .null => false
  | .bool b => b
  | .num n => n != 0
  | .str s => s != ""

/-- The JavaScript operator `a || b`. -/
def JsVal.or (a b : JsVal) : JsVal :=
  if a.truthy then a else b

/-- Errors thrown by the JavaScript runtime. -/
inductive JsError where
  | typeError (msg : String)
  deriving DecidableEq, Repr

/-! ## Data model (the JSON shapes read by `mapProductToCsvRow`) -/

/-- An entry of `product.images`, also the shape of `variant.featured_image`. -/
structure Image where
  src : JsVal
  alt : JsVal
  deriving DecidableEq, Repr

/-- An entry of `product.options`. -/
structure ProductOption where
  name : JsVal
  deriving DecidableEq, Repr

/-- A variant object.  `featured_image` is `none` when the property is missing
or `null`.  `extra` holds the remaining scalar properties of the object by
property name (`option1`, `option2`, ...), read by `variant[key]`. -/
structure Variant where
  sku : JsVal
  grams : JsVal
  inventory_quantity : JsVal
  featured_image : Option Image
  price : JsVal
  compare_at_price : JsVal
  requires_shipping : JsVal
  taxable : JsVal
  barcode : JsVal
  extra : List (String × JsVal)
  deriving DecidableEq, Repr

/-- The dynamic property read `variant[key]`: `undefined` when the variant has
no such property. -/
def Variant.prop (variant : Variant) (key : String) : JsVal :=
  match variant.extra.lookup key with
  | some v => v
  | none => .undefined

/-- A product object.  The four array-valued properties are `none` when the
payload does not carry them (for `tags`, `options` and `variants`: also when
the property is not an array), which is where the mapper can throw. -/
structure Product where
  handle : JsVal
  title : JsVal
  body_html : JsVal
  vendor : JsVal
  product_type : JsVal
  tags : Option (List String)
  images : Option (List Image)
  options : Option (List ProductOption)
  variants : Option (List Variant)
  deriving DecidableEq, Repr

/-! ## CSV rows: JavaScript objects with string keys in insertion order -/

/-- A row object: its own properties in insertion order. -/
abbrev Row := List (String × JsVal)

/-- Reading `row[key]`; `none` when the row has no such column. -/
def Row.get : Row → String → Option JsVal
  | [], _ => none
  | (k, v) :: rest, key => if k = key then some v else Row.get rest key

/-- The assignment `row[key] = val`: overwrites an existing property in place,
otherwise appends a new one. -/
def Row.set : Row → String → JsVal → Row
  | [], key, val => [(key, val)]
  | (k, v) :: rest, key, val =>
    if k = key then (k, val) :: rest else (k, v) :: Row.set rest key val

/-- The template literal `Option${n} Name`. -/
def optionNameKey (n : Nat) : String :=
  "Option" ++ toString n ++ " Name"

/-- The template literal `Option${n} Value`. -/
def optionValueKey (n : Nat) : String :=
  "Option" ++ toString n ++ " Value"

/-- The template literal `option${n}`. -/
def variantOptionKey (n : Nat) : String :=
  "option" ++ toString n

/-- The call `product.tags.join(', ')`. -/
def joinTags (product : Product) : Except JsError JsVal :=
  match product.tags with
  | none => .error (.typeError "product.tags.join is not a function")
  | some tags => .ok (.str (", ".intercalate tags))

/-- The read `product.images[0]`: throws when `product.images` is missing, and is
`none` (JavaScript `undefined`) when the array is empty. -/
def firstImage (product : Product) : Except JsError (Option Image) :=
  match product.images with
  | none => .error (.typeError "Cannot read properties of undefined (reading '0')")
  | some images => .ok images.head?

/-- Optional chaining `image?.field`. -/
def optChain (image : Option Image) (field : Image → JsVal) : JsVal :=
  match image with
  | none => .undefined
  | some img => field img

/-- The object literal of lines 90-111: the twenty fixed columns of the row of
`variant` at position `index`. -/
def rowLiteral (product : Product) (variant : Variant) (index : Nat) :
    Except JsError Row := do
  let tags ← if index = 0 then joinTags product else pure (.str "")
  let imageSrc ←
    if index = 0 then
      (do let img ← firstImage product; pure ((optChain img Image.src).or (.str "")))
    else pure (.str "")
  let imageAlt ←
    if index = 0 then
      (do let img ← firstImage product; pure ((optChain img Image.alt).or (.str "")))
    else pure (.str "")
  pure [
    ("Handle", product.handle),
    ("Title", if index = 0 then product.title else .str ""),
    ("Body (HTML)", if index = 0 then product.body_html else .str ""),
    ("Vendor", if index = 0 then product.vendor else .str ""),
    ("Type", if index = 0 then product.product_type else .str ""),
    ("Tags", tags),
    ("Published", if index = 0 then .str "TRUE" else .str ""),
    ("Variant SKU", variant.sku),
    ("Variant Grams", variant.grams),
    ("Variant Inventory Qty", variant.inventory_quantity),
    ("Variant Image",
      match variant.featured_image with
      | some img => img.src
      | none => .str ""),
    ("Variant Price", variant.price),
    ("Variant Compare At Price", variant.compare_at_price),
    ("Variant Requires Shipping",
      if variant.requires_shipping.truthy then .str "TRUE" else .str "FALSE"),
    ("Variant Taxable", if variant.taxable.truthy then .str "TRUE" else .str "FALSE"),
    ("Variant Barcode", variant.barcode),
    ("Image Src", imageSrc),
    ("Image Position", if index = 0 then .str "1" else .str ""),
    ("Image Alt Text", imageAlt),
    ("Status", .str "active")]

/-- The loop `product.options.forEach((option, optionIndex) => ...)` of lines
114-117 over the remaining options, mutating `row`. -/
def optionsForEach (variant : Variant) : List ProductOption → Nat → Row → Row
  | [], _, row => row
  | option :: rest, optionIndex, row =>
    let row1 := Row.set row (optionNameKey (optionIndex + 1)) option.name
    let row2 := Row.set row1 (optionValueKey (optionIndex + 1))
      ((variant.prop (variantOptionKey (optionIndex + 1))).or (.str ""))
    optionsForEach variant rest (optionIndex + 1) row2

/-- The body of the callback of `product.variants.forEach` (lines 90-117): the
row pushed for `variant` at position `index`. -/
def variantRow (product : Product) (variant : Variant) (index : Nat) :
    Except JsError Row := do
  let row ← rowLiteral product variant index
  match product.options with
  | none => throw (.typeError "Cannot read properties of undefined (reading 'forEach')")
  | some options => pure (optionsForEach variant options 0 row)

/-- The loop `product.variants.forEach((variant, index) => ...)` over the
remaining variants, pushing onto `productRows`. -/
def variantsForEach (product : Product) :
    List Variant → Nat → List Row → Except JsError (List Row)
  | [], _, productRows => .ok productRows
  | variant :: rest, index, productRows => do
    let row ← variantRow product variant index
    variantsForEach product rest (index + 1) (productRows ++ [row])

/-- The function `mapProductToCsvRow(product)` (lines 86-123). -/
def mapProductToCsvRow (product : Product) : Except JsError (List Row) :=
  match product.variants with
  | none => .error (.typeError "Cannot read properties of undefined (reading 'forEach')")
  | some variants => variantsForEach product variants 0 []


/-- The value of the object literal of lines 90-111 once `product.tags` and
`product.images` are known to be the arrays `tags` and `images`. -/
def literalColumns (product : Product) (tags : List String) (images : List Image)
    (variant : Variant) (index : Nat) : Row :=
  [("Handle", product.handle),
   ("Title", if index = 0 then product.title else .str ""),
   ("Body (HTML)", if index = 0 then product.body_html else .str ""),
   ("Vendor", if index = 0 then product.vendor else .str ""),
   ("Type", if index = 0 then product.product_type else .str ""),
   ("Tags", if index = 0 then .str (", ".intercalate tags) else .str ""),
   ("Published", if index = 0 then .str "TRUE" else .str ""),
   ("Variant SKU", variant.sku),
   ("Variant Grams", variant.grams),
   ("Variant Inventory Qty", variant.inventory_quantity),
   ("Variant Image",
     match variant.featured_image with
     | some img => img.src
     | none => .str ""),
   ("Variant Price", variant.price),
   ("Variant Compare At Price", variant.compare_at_price),
   ("Variant Requires Shipping",
     if variant.requires_shipping.truthy then .str "TRUE" else .str "FALSE"),
   ("Variant Taxable", if variant.taxable.truthy then .str "TRUE" else .str "FALSE"),
   ("Variant Barcode", variant.barcode),
   ("Image Src",
     if index = 0 then (optChain images.head? Image.src).or (.str "") else .str ""),
   ("Image Position", if index = 0 then .str "1" else .str ""),
   ("Image Alt Text",
     if index = 0 then (optChain images.head? Image.alt).or (.str "") else .str ""),
   ("Status", .str "active")]

/-- What a run does that can be observed from outside, in order. -/
inductive Event where
  /-- The request `axios.get(url)` is issued. -/
  | httpGet (url : String)
  /-- The delay `sleep(ms)` is awaited. -/
  | sleep (ms : Nat)
  /-- A `console.log` line. -/
  | log (msg : String)
  /-- A `console.error` line (the message text; the error object is not recorded). -/
  | error (msg : String)
  /-- An `inquirer.prompt` question with its choices. -/
  | prompt (message : String) (choices : List String)
  /-- The call `fs.createWriteStream(path)`. -/
  | createWriteStream (path : String)
  /-- The call `csvStream.write(row)`. -/
  | write (row : Row)
  /-- The call `csvStream.end()`. -/
  | endStream
  deriving DecidableEq, Repr

/-- A numeric setting: `text` is how it appears in a template literal, `value`
is its numeric reading in arithmetic and comparisons. -/
structure NumArg where
  text : String
  value : Nat
  deriving DecidableEq, Repr

/-- The module-level constants of lines 11-19.  `baseUrl` is `none` when
`process.argv[2]` is `undefined`. -/
structure Globals where
  baseUrl : Option String
  shopifyStore : String
  productLimit : NumArg
  pageLimit : NumArg
  requestDelay : NumArg
  csvFileName : String
  deriving DecidableEq, Repr

/-- The text of `${baseUrl}` in a template literal. -/
def Globals.baseUrlText (g : Globals) : String :=
  match g.baseUrl with
  | some url => url
  | none => "undefined"

/-- The payload of `/meta.json`. -/
structure StoreMeta where
  published_products_count : Nat
  published_collections_count : Nat
  deriving DecidableEq, Repr

/-- An entry of the `collections` payload. -/
structure Collection where
  handle : String
  title : String
  products_count : Nat
  deriving DecidableEq, Repr

/-- Everything the run reads from outside: the store's answers, the operator's
answers, and the numeric reading of the limit arguments.  A request's answer is
`none` when the request fails, that is when the `try` block throws before the
payload is used. -/
structure World where
  /-- JavaScript's numeric reading of a limit given on the command line; the
  limits are taken to denote natural numbers. -/
  numericValue : String → Nat
  /-- The answer to `GET /meta.json`. -/
  storeMeta : Option StoreMeta
  /-- The answer to `GET /products.json?limit=..&page=p`, by page. -/
  productsPage : Nat → Option (List Product)
  /-- The answer to `GET /collections.json?limit=250&page=p`, by page. -/
  collectionsPage : Nat → Option (List Collection)
  /-- The answer to `GET /collections/{handle}/products.json`, by handle. -/
  collectionProducts : String → Option (List Product)
  /-- The operator's answer to the export-type question. -/
  exportType : String
  /-- The operator's answer to the collection checklist, given the collections shown. -/
  selectedCollections : List Collection → List String

/-- The result of a paginated fetch: what the function returns and what it did. -/
structure Fetched (α : Type) where
  items : List α
  trace : List Event

/-- How a run, or a call that may throw, ends. -/
inductive Exit where
  /-- The code ran to its end. -/
  | completed
  /-- The call `process.exit(code)` was made. -/
  | exited (code : Nat)
  /-- An exception was thrown and nothing caught it. -/
  | uncaught (error : JsError)
  deriving DecidableEq, Repr

/-- A run: its observable events and how it ended. -/
structure Run where
  trace : List Event
  exit : Exit
  deriving DecidableEq, Repr

/-! ## Paginator -/

/-- The value `Math.ceil(a / b)` for natural `a` and positive `b`. -/
def ceilDiv (a b : Nat) : Nat :=
  (a + b - 1) / b

/-- The value `Math.min(Math.ceil(totalProducts / productLimit), pageLimit)` (line 35).
With `productLimit` zero the quotient is `Infinity`, capped by `pageLimit`, or
`NaN` when `totalProducts` is zero too, under which the loop runs no page. -/
def productPages (g : Globals) (totalProducts : Nat) : Nat :=
  if g.productLimit.value = 0 then
    (if totalProducts = 0 then 0 else g.pageLimit.value)
  else min (ceilDiv totalProducts g.productLimit.value) g.pageLimit.value

/-- The URL of line 39. -/
def productsUrl (g : Globals) (page : Nat) : String :=
  g.baseUrlText ++ "/products.json?limit=" ++ g.productLimit.text ++ "&page=" ++ toString page

/-- The loop of lines 38-48 from `page` on. -/
def fetchAllProducts.loop (g : Globals) (w : World) (totalPages : Nat)
    (page : Nat) (products : List Product) (trace : List Event) : Fetched Product :=
  if page ≤ totalPages then
    let trace1 := trace ++ [Event.httpGet (productsUrl g page)]
    match w.productsPage page with
    | some pageProducts =>
      let products1 := products ++ pageProducts
      let trace2 := trace1 ++
        [Event.log ("Fetched page " ++ toString page ++ " of " ++ toString totalPages)]
      let trace3 := if page < totalPages then trace2 ++ [Event.sleep g.requestDelay.value]
        else trace2
      fetchAllProducts.loop g w totalPages (page + 1) products1 trace3
    | none =>
      let trace2 := trace1 ++
        [Event.error ("Error fetching products for page " ++ toString page ++ ":")]
      fetchAllProducts.loop g w totalPages (page + 1) products trace2
  else { items := products, trace := trace }
termination_by totalPages + 1 - page

/-- The function `fetchAllProducts(totalProducts)` (lines 34-51). -/
def fetchAllProducts (g : Globals) (w : World) (totalProducts : Nat) : Fetched Product :=
  fetchAllProducts.loop g w (productPages g totalProducts) 1 [] []

/-- The URL of line 71. -/
def collectionsUrl (g : Globals) (page : Nat) : String :=
  g.baseUrlText ++ "/collections.json?limit=250&page=" ++ toString page

/-- The loop of lines 70-80 from `page` on. -/
def fetchCollections.loop (g : Globals) (w : World) (totalPages : Nat)
    (page : Nat) (collections : List Collection) (trace : List Event) : Fetched Collection :=
  if page ≤ totalPages then
    let trace1 := trace ++ [Event.httpGet (collectionsUrl g page)]
    match w.collectionsPage page with
    | some pageCollections =>
      let collections1 := collections ++ pageCollections
      let trace2 := trace1 ++
        [Event.log ("Fetched collection page " ++ toString page ++ " of " ++
          toString totalPages)]
      let trace3 := if page < totalPages then trace2 ++ [Event.sleep g.requestDelay.value]
        else trace2
      fetchCollections.loop g w totalPages (page + 1) collections1 trace3
    | none =>
      let trace2 := trace1 ++
        [Event.error ("Error fetching collections for page " ++ toString page ++ ":")]
      fetchCollections.loop g w totalPages (page + 1) collections trace2
  else { items := collections, trace := trace }
termination_by totalPages + 1 - page

/-- The function `fetchCollections(totalCollections)` (lines 66-83). -/
def fetchCollections (g : Globals) (w : World) (totalCollections : Nat) :
    Fetched Collection :=
  fetchCollections.loop g w (ceilDiv totalCollections 250) 1 [] []

/-- The function `fetchProductsFromCollection(collectionHandle)` (lines 54-63). -/
def fetchProductsFromCollection (g : Globals) (w : World) (collectionHandle : String) :
    Fetched Product :=
  let url := g.baseUrlText ++ "/collections/" ++ collectionHandle ++
    "/products.json?limit=" ++ g.productLimit.text
  match w.collectionProducts collectionHandle with
  | some products => { items := products, trace := [Event.httpGet url] }
  | none =>
    { items := [],
      trace := [Event.httpGet url,
        Event.error ("Error fetching products from collection " ++ collectionHandle ++ ":")] }

/-- The function `fetchMetaData()` (lines 22-31): the payload, or `none` for `null`. -/
def fetchMetaData (g : Globals) (w : World) : Option StoreMeta × List Event :=
  let url := g.baseUrlText ++ "/meta.json"
  match w.storeMeta with
  | some data => (some data, [Event.httpGet url])
  | none => (none, [Event.httpGet url, Event.error "Error fetching meta data:"])

/-- The URLs requested in a trace, in order. -/
def requestedUrls (trace : List Event) : List String :=
  trace.filterMap (fun e => match e with
    | .httpGet url => some url
    | _ => none)

/-- The number of delays in a trace. -/
def sleepCount (trace : List Event) : Nat :=
  (trace.filter (fun e => match e with
    | .sleep _ => true
    | _ => false)).length

/-- The files opened for writing in a trace, in order. -/
def openedFiles (trace : List Event) : List String :=
  trace.filterMap (fun e => match e with
    | .createWriteStream path => some path
    | _ => none)

/-! ## Start-up: the module-level constants -/

/-- The group `([^\.]+)` at the start of `s`: the longest run of characters
other than a dot, which must not be empty. -/
def captureNonDots (s : List Char) : Option (List Char) :=
  match s.takeWhile (fun c => c != '.') with
  | [] => none
  | c :: cs => some (c :: cs)

/-- The tail `(?:www\.)?([^\.]+)` of the pattern at the start of `s`: first
with `www.` consumed, then without. -/
def matchAfterScheme (s : List Char) : Option (List Char) :=
  match (if "www.".data.isPrefixOf s then captureNonDots (s.drop 4) else none) with
  | some capture => some capture
  | none => captureNonDots s

/-- The group `(?:https?:\/\/)` at the start of `s`: the rest of the input
after the scheme, if there is one. -/
def matchScheme (s : List Char) : Option (List Char) :=
  if "https://".data.isPrefixOf s then some (s.drop 8)
  else if "http://".data.isPrefixOf s then some (s.drop 7)
  else none

/-- The whole pattern `(?:https?:\/\/)?(?:www\.)?([^\.]+)` anchored at the
start of `s`, in backtracking order: with the scheme consumed, then without.
The result is capture group 1. -/
def matchHere (s : List Char) : Option (List Char) :=
  match (match matchScheme s with
    | some rest => matchAfterScheme rest
    | none => none) with
  | some capture => some capture
  | none => matchAfterScheme s

/-- The search of `String.prototype.match`: the first position at which the
pattern matches, left to right; `none` for `null`. -/
def regexCapture : List Char → Option (List Char)
  | [] => none
  | c :: cs =>
    match matchHere (c :: cs) with
    | some capture => some capture
    | none => regexCapture cs

/-- The constant `shopifyStore`, that is `baseUrl.match(/(?:https?:\/\/)?(?:www\.)?([^\.]+)/)[1]` (line 12). -/
def shopifyStore (baseUrl : Option String) : Except JsError String :=
  match baseUrl with
  | none => .error (.typeError "Cannot read properties of undefined (reading 'match')")
  | some url =>
    match regexCapture url.data with
    | none => .error (.typeError "Cannot read properties of null (reading '1')")
    | some capture => .ok (String.mk capture)

/-- The call `s.replace(pattern, '')` with a string pattern: the first occurrence of
`pattern` is removed. -/
def removeFirst (pattern : List Char) : List Char → List Char
  | [] => []
  | c :: cs =>
    if pattern.isPrefixOf (c :: cs) then (c :: cs).drop pattern.length
    else c :: removeFirst pattern cs

/-- The constant `csvFileName` of line 19; `arg` is `process.argv[6]`. -/
def csvFileName (arg : Option String) (store : String) : String :=
  match arg with
  | some name =>
    if name != "" then String.mk (removeFirst ".csv".data name.data) ++ ".csv"
    else "shopify_products_export_" ++ store ++ ".csv"
  | none => "shopify_products_export_" ++ store ++ ".csv"

/-- A numeric setting of lines 16-18: `process.argv[i] ? process.argv[i] : fallback`. -/
def numArg (w : World) (arg : Option String) (fallback : Nat) : NumArg :=
  match arg with
  | some s =>
    if s != "" then { text := s, value := w.numericValue s }
    else { text := toString fallback, value := fallback }
  | none => { text := toString fallback, value := fallback }

/-! ## CSV writer and `main` -/

/-- The path `generateCSV` opens (line 126). -/
def csvPath (fileName : String) : String :=
  "./" ++ fileName ++ ".csv"

/-- The loop `products.forEach(...)` of lines 135-140: every row of every
product is written; an exception of the mapper ends the loop. -/
def writeProducts : List Product → List Event → Run
  | [], trace => { trace := trace, exit := .completed }
  | product :: rest, trace =>
    match mapProductToCsvRow product with
    | .error e => { trace := trace, exit := .uncaught e }
    | .ok rows => writeProducts rest (trace ++ rows.map Event.write)

/-- The function `generateCSV(products, fileName)` (lines 125-143).  The `finish` callback
runs later from the event loop and is not part of the trace. -/
def generateCSV (products : List Product) (fileName : String) : Run :=
  let written := writeProducts products [Event.createWriteStream (csvPath fileName)]
  match written.exit with
  | .completed => { trace := written.trace ++ [Event.endStream], exit := .completed }
  | other => { trace := written.trace, exit := other }

/-- The loop of lines 190-193 over the selected collection handles. -/
def exportCollections (g : Globals) (w : World) : List String → List Event → Run
  | [], trace => { trace := trace, exit := .completed }
  | collectionHandle :: rest, trace =>
    let fetched := fetchProductsFromCollection g w collectionHandle
    let written := generateCSV fetched.items
      (g.shopifyStore ++ "_collection_" ++ collectionHandle ++ "_products_export")
    match written.exit with
    | .completed => exportCollections g w rest (trace ++ fetched.trace ++ written.trace)
    | other => { trace := trace ++ fetched.trace ++ written.trace, exit := other }

/-- The question of line 160. -/
def exportTypePrompt : Event :=
  .prompt "Do you want to export all products or from specific collections?"
    ["All Products", "Specific Collections"]

/-- The function `main()` (lines 145-195). -/
def main (g : Globals) (w : World) : Run :=
  if g.baseUrl = none ∨ g.baseUrl = some "" then
    { trace := [Event.error "Please provide a base URL as a command line argument."],
      exit := .exited 1 }
  else
    let (metaData, metaTrace) := fetchMetaData g w
    match metaData with
    | none =>
      { trace := metaTrace ++ [Event.error "Error fetching meta data. Exiting."],
        exit := .exited 1 }
    | some data =>
      let totalProducts := data.published_products_count
      let totalCollections := data.published_collections_count
      let trace1 := metaTrace ++ [exportTypePrompt]
      if w.exportType = "All Products" then
        if totalProducts > 0 then
          let fetched := fetchAllProducts g w totalProducts
          let written := generateCSV fetched.items g.csvFileName
          { trace := trace1 ++ fetched.trace ++ written.trace, exit := written.exit }
        else
          { trace := trace1 ++ [Event.log "No products found."], exit := .completed }
      else if w.exportType = "Specific Collections" then
        let fetched := fetchCollections g w totalCollections
        let choices := fetched.items.map (fun collection =>
          collection.title ++ " (" ++ toString collection.products_count ++ " products)")
        let trace2 := trace1 ++ fetched.trace ++
          [Event.prompt "Select the collections you want to export:" choices]
        exportCollections g w (w.selectedCollections fetched.items) trace2
      else
        { trace := trace1, exit := .completed }

/-- The program: the module is evaluated top to bottom (lines 11-19), then
`main()` is called (line 197).  An exception at module level ends the run
before `main` is entered. -/
def program (argv : List String) (w : World) : Run :=
  let baseUrl := argv[2]?
  match shopifyStore baseUrl with
  | .error e => { trace := [], exit := .uncaught e }
  | .ok store =>
    main
      { baseUrl := baseUrl,
        shopifyStore := store,
        productLimit := numArg w argv[3]? 25,
        pageLimit := numArg w argv[4]? 2,
        requestDelay := numArg w argv[5]? 2000,
        csvFileName := csvFileName argv[6]? store }
      w

/-! ## Sample runs -/

/-- A world in which every request succeeds with an empty payload list. -/
def quietWorld : World :=
  { numericValue := fun s => s.toNat?.getD 0,
    storeMeta := some { published_products_count := 100, published_collections_count := 3 },
    productsPage := fun _ => some [],
    collectionsPage := fun _ => some [],
    collectionProducts := fun _ => some [],
    exportType := "All Products",
    selectedCollections := fun _ => [] }

/-! ## Sample data -/

/-- A variant with option values `Red` and `M` and no featured image. -/
def sampleVariant : Variant :=
  { sku := .str "TS-RED-M", grams := .num 200, inventory_quantity := .num 5,
    featured_image := none, price := .str "19.99", compare_at_price := .null,
    requires_shipping := .bool true, taxable := .bool false, barcode := .null,
    extra := [("option1", .str "Red"), ("option2", .str "M")] }

/-- A second variant, with a featured image and a single option value. -/
def sampleVariantBlue : Variant :=
  { sku := .str "TS-BLU-M", grams := .num 210, inventory_quantity := .num 0,
    featured_image := some { src := .str "https://cdn.example/blue.png", alt := .null },
    price := .str "21.99", compare_at_price := .str "25.00",
    requires_shipping := .bool true, taxable := .bool true, barcode := .str "0123",
    extra := [("option1", .str "Blue")] }

/-- A product with three variants, the options `Color` and `Size`, two tags
and no images. -/
def sampleProduct : Product :=
  { handle := .str "t-shirt", title := .str "T-Shirt", body_html := .str "<p>Soft</p>",
    vendor := .str "Acme", product_type := .str "Shirts",
    tags := some ["cotton", "summer"], images := some [],
    options := some [{ name := .str "Color" }, { name := .str "Size" }],
    variants := some [sampleVariant, sampleVariantBlue, sampleVariant] }

/-- The sample product with one image that has neither `src` nor `alt`. -/
def sampleProductBareImage : Product :=
  { sampleProduct with images := some [{ src := .undefined, alt := .undefined }] }

/-- The settings of a run started with the base URL only: limit 25, at most 2
pages, 2000 ms between requests. -/
def sampleGlobals : Globals :=
  { baseUrl := some "https://example.myshopify.com",
    shopifyStore := "example",
    productLimit := { text := "25", value := 25 },
    pageLimit := { text := "2", value := 2 },
    requestDelay := { text := "2000", value := 2000 },
    csvFileName := "shopify_products_export_example.csv" }

/-- A world in which the request for page 1 fails, of products and of
collections alike, and every other request succeeds. -/
def firstPageFails : World :=
  { quietWorld with
    productsPage := fun page => if page = 1 then none else some [sampleProduct],
    collectionsPage := fun page =>
      if page = 1 then none
      else some [{ handle := "sale", title := "Sale", products_count := 4 }] }

/-- A world in which the request for page 2 of the products fails. -/
def secondPageFails : World :=
  { quietWorld with
    productsPage := fun page => if page = 2 then none else some [sampleProduct] }

theorem optionNameKey_head (n : Nat) : (optionNameKey n).data.head? = some 'O' := by
  simp [optionNameKey, String.data_append]

theorem optionValueKey_head (n : Nat) : (optionValueKey n).data.head? = some 'O' := by
  simp [optionValueKey, String.data_append]

/-! ## Reading and writing row properties -/

theorem Row.get_set_of_ne (row : Row) (key key2 : String) (val : JsVal) (hne : key ≠ key2) :
    Row.get (Row.set row key val) key2 = Row.get row key2 := by
  induction row with
  | nil => simp [Row.set, Row.get, hne]
  | cons kv rest ih =>
    obtain ⟨k, v⟩ := kv
    by_cases h : k = key
    · subst h
      simp [Row.set, Row.get, hne]
    · by_cases h2 : k = key2
      · subst h2
        simp [Row.set, Row.get, h]
      · simp [Row.set, Row.get, h, h2, ih]

theorem get_optionsForEach_of_ne (variant : Variant) (key : String) :
    ∀ (options : List ProductOption) (j : Nat) (row : Row),
      (∀ t, t < options.length →
        key ≠ optionNameKey (j + t + 1) ∧ key ≠ optionValueKey (j + t + 1)) →
      Row.get (optionsForEach variant options j row) key = Row.get row key := by
  intro options
  induction options with
  | nil => intro j row _; rfl
  | cons o rest ih =>
    intro j row h
    have h0 := h 0 (by simp)
    simp only [optionsForEach]
    rw [ih (j + 1)]
    · rw [Row.get_set_of_ne _ _ _ _ (Ne.symm h0.2), Row.get_set_of_ne _ _ _ _ (Ne.symm h0.1)]
    · intro t ht
      have := h (t + 1) (by simpa using ht)
      have e : j + (t + 1) + 1 = j + 1 + t + 1 := by omega
      rw [e] at this
      exact this

theorem get_optionsForEach_fixed (variant : Variant) (key : String)
    (hk : key.data.head? ≠ some 'O') (options : List ProductOption) (j : Nat) (row : Row) :
    Row.get (optionsForEach variant options j row) key = Row.get row key := by
  apply get_optionsForEach_of_ne
  intro t _
  constructor
  · intro e; exact hk (e ▸ optionNameKey_head _)
  · intro e; exact hk (e ▸ optionValueKey_head _)

theorem rowLiteral_eq (product : Product) (tags : List String) (images : List Image)
    (variant : Variant) (index : Nat)
    (htags : product.tags = some tags) (himages : product.images = some images) :
    rowLiteral product variant index =
      .ok (literalColumns product tags images variant index) := by
  by_cases h : index = 0
  · simp [rowLiteral, literalColumns, joinTags, firstImage, htags, himages, h, bind,
      Except.bind, pure, Except.pure]
  · simp [rowLiteral, literalColumns, h, bind, Except.bind, pure, Except.pure]

theorem variantRow_eq (product : Product) (tags : List String) (images : List Image)
    (options : List ProductOption) (variant : Variant) (index : Nat)
    (htags : product.tags = some tags) (himages : product.images = some images)
    (hoptions : product.options = some options) :
    variantRow product variant index =
      .ok (optionsForEach variant options 0
        (literalColumns product tags images variant index)) := by
  simp [variantRow, rowLiteral_eq product tags images variant index htags himages, hoptions,
    bind, Except.bind, pure, Except.pure]

theorem variantsForEach_ok (product : Product)
    (hrow : ∀ (variant : Variant) (index : Nat), ∃ row, variantRow product variant index = .ok row) :
    ∀ (variants : List Variant) (index : Nat) (productRows : List Row),
      ∃ rows, variantsForEach product variants index productRows = .ok (productRows ++ rows) ∧
        rows.length = variants.length ∧
        ∀ (k : Nat) (variant : Variant), variants[k]? = some variant →
          ∃ row, rows[k]? = some row ∧ variantRow product variant (index + k) = .ok row := by
  intro variants
  induction variants with
  | nil =>
    intro index productRows
    exact ⟨[], by simp [variantsForEach], rfl, by simp⟩
  | cons v rest ih =>
    intro index productRows
    obtain ⟨row, hr⟩ := hrow v index
    obtain ⟨rows, h1, h2, h3⟩ := ih (index + 1) (productRows ++ [row])
    refine ⟨row :: rows, ?_, by simp [h2], ?_⟩
    · simp [variantsForEach, hr, h1, bind, Except.bind]
    · intro k variant hk
      cases k with
      | zero =>
        simp only [List.getElem?_cons_zero, Option.some.injEq] at hk
        subst hk
        exact ⟨row, by simp, by simpa using hr⟩
      | succ k =>
        simp only [List.getElem?_cons_succ] at hk
        obtain ⟨r, hr1, hr2⟩ := h3 k variant hk
        refine ⟨r, by simpa using hr1, ?_⟩
        have e : index + (k + 1) = index + 1 + k := by omega
        rw [e]
        exact hr2

/-- The rows of a product whose four array properties are present: one per
variant, row `k` being the callback's row for variant `k`. -/
theorem mapProductToCsvRow_rows (product : Product) (variants : List Variant)
    (tags : List String) (images : List Image) (options : List ProductOption)
    (hvariants : product.variants = some variants) (htags : product.tags = some tags)
    (himages : product.images = some images) (hoptions : product.options = some options) :
    ∃ rows, mapProductToCsvRow product = .ok rows ∧ rows.length = variants.length ∧
      ∀ (k : Nat) (variant : Variant), variants[k]? = some variant →
        rows[k]? = some (optionsForEach variant options 0
          (literalColumns product tags images variant k)) := by
  have hrow : ∀ (variant : Variant) (index : Nat),
      ∃ row, variantRow product variant index = .ok row :=
    fun variant index => ⟨_, variantRow_eq product tags images options variant index
      htags himages hoptions⟩
  obtain ⟨rows, h1, h2, h3⟩ := variantsForEach_ok product hrow variants 0 []
  refine ⟨rows, by simpa [mapProductToCsvRow, hvariants] using h1, h2, ?_⟩
  intro k variant hk
  obtain ⟨row, hr1, hr2⟩ := h3 k variant hk
  rw [Nat.zero_add, variantRow_eq product tags images options variant k htags himages
    hoptions] at hr2
  rw [hr1]
  injection hr2 with hr2
  rw [hr2]

/-- C1: `mapProductToCsvRow` returns exactly one row per variant, in the order
of `product.variants`: row `k` is the row the callback builds from variant `k`
at index `k`, it carries that variant's columns, and its `Handle` is
`product.handle`.  The three other array properties are only needed when there
is a variant; a product with no variants yields no rows. -/
theorem mapProductToCsvRow_one_row_per_variant (product : Product)
    (variants : List Variant) (hvariants : product.variants = some variants)
    (harrays : variants ≠ [] →
      product.tags.isSome ∧ product.images.isSome ∧ product.options.isSome) :
    ∃ rows, mapProductToCsvRow product = .ok rows ∧ rows.length = variants.length ∧
      (variants = [] → rows = []) ∧
      ∀ (k : Nat) (variant : Variant), variants[k]? = some variant →
        ∃ row, rows[k]? = some row ∧ variantRow product variant k = .ok row ∧
          Row.get row "Handle" = some product.handle ∧
          Row.get row "Variant SKU" = some variant.sku ∧
          Row.get row "Variant Grams" = some variant.grams ∧
          Row.get row "Variant Inventory Qty" = some variant.inventory_quantity ∧
          Row.get row "Variant Price" = some variant.price ∧
          Row.get row "Variant Compare At Price" = some variant.compare_at_price ∧
          Row.get row "Variant Barcode" = some variant.barcode := by
  by_cases hne : variants = []
  · subst hne
    exact ⟨[], by simp [mapProductToCsvRow, hvariants, variantsForEach], rfl, fun _ => rfl,
      by simp⟩
  · obtain ⟨ht, hi, ho⟩ := harrays hne
    obtain ⟨tags, htags⟩ := Option.isSome_iff_exists.mp ht
    obtain ⟨images, himages⟩ := Option.isSome_iff_exists.mp hi
    obtain ⟨options, hoptions⟩ := Option.isSome_iff_exists.mp ho
    obtain ⟨rows, h1, h2, h3⟩ := mapProductToCsvRow_rows product variants tags images options
      hvariants htags himages hoptions
    refine ⟨rows, h1, h2, fun h => absurd h hne, ?_⟩
    intro k variant hk
    refine ⟨_, h3 k variant hk,
      variantRow_eq product tags images options variant k htags himages hoptions,
      ?_, ?_, ?_, ?_, ?_, ?_, ?_⟩ <;>
    · rw [get_optionsForEach_fixed _ _ (by decide)]
      simp [literalColumns, Row.get]

/-- Witness for C1: the sample product has three variants and yields three rows. -/
theorem mapProductToCsvRow_one_row_per_variant_witness :
    sampleProduct.variants = some [sampleVariant, sampleVariantBlue, sampleVariant] ∧
    ∃ rows, mapProductToCsvRow sampleProduct = .ok rows ∧ rows.length = 3 :=
  ⟨rfl, by
    obtain ⟨rows, h1, h2, _⟩ := mapProductToCsvRow_one_row_per_variant sampleProduct
      [sampleVariant, sampleVariantBlue, sampleVariant] rfl (fun _ => by decide)
    exact ⟨rows, h1, h2⟩⟩

/-- C3 fails as stated: the second row of the sample product has `Status`
equal to `active`, not the empty string. -/
theorem status_not_blank_in_later_rows :
    ∃ rows row, mapProductToCsvRow sampleProduct = .ok rows ∧ rows[1]? = some row ∧
      Row.get row "Status" = some (.str "active") ∧
      Row.get row "Status" ≠ some (.str "") := by
  refine ⟨_, _, rfl, rfl, ?_, ?_⟩ <;> decide

/-- C3 as amended: the `Status` column is `active` in every row, the first and
the later ones alike. -/
theorem mapProductToCsvRow_status_every_row (product : Product)
    (variants : List Variant) (tags : List String) (images : List Image)
    (options : List ProductOption)
    (hvariants : product.variants = some variants) (htags : product.tags = some tags)
    (himages : product.images = some images) (hoptions : product.options = some options) :
    ∃ rows, mapProductToCsvRow product = .ok rows ∧ rows.length = variants.length ∧
      ∀ (k : Nat), k < variants.length →
        ∃ row, rows[k]? = some row ∧ Row.get row "Status" = some (.str "active") := by
  obtain ⟨rows, h1, h2, h3⟩ := mapProductToCsvRow_rows product variants tags images options
    hvariants htags himages hoptions
  refine ⟨rows, h1, h2, ?_⟩
  intro k hk
  have hv : variants[k]? = some variants[k] := List.getElem?_eq_getElem hk
  refine ⟨_, h3 k _ hv, ?_⟩
  rw [get_optionsForEach_fixed _ _ (by decide)]
  simp [literalColumns, Row.get]

/-- Witness for the amended C3 on the sample product. -/
theorem mapProductToCsvRow_status_every_row_witness :
    ∃ rows, mapProductToCsvRow sampleProduct = .ok rows ∧ rows.length = 3 ∧
      ∀ (k : Nat), k < 3 →
        ∃ row, rows[k]? = some row ∧ Row.get row "Status" = some (.str "active") :=
  mapProductToCsvRow_status_every_row sampleProduct
    [sampleVariant, sampleVariantBlue, sampleVariant] ["cotton", "summer"] []
    [{ name := .str "Color" }, { name := .str "Size" }] rfl rfl rfl rfl

/-- C10: when `variants`, `options`, `tags` and `images` are arrays the mapper
returns its rows without throwing; `Variant Image` is the empty string for a
variant with no `featured_image` and `featured_image.src` otherwise; and the
first row has the empty string in `Image Src` and `Image Alt Text` when the
product has no image, and in `Image Src` (`Image Alt Text`) when the first
image has no `src` (`alt`). -/
theorem mapProductToCsvRow_missing_images (product : Product)
    (variants : List Variant) (tags : List String) (images : List Image)
    (options : List ProductOption)
    (hvariants : product.variants = some variants) (htags : product.tags = some tags)
    (himages : product.images = some images) (hoptions : product.options = some options) :
    ∃ rows, mapProductToCsvRow product = .ok rows ∧ rows.length = variants.length ∧
      (∀ (k : Nat) (variant : Variant), variants[k]? = some variant →
        ∃ row, rows[k]? = some row ∧
          (variant.featured_image = none → Row.get row "Variant Image" = some (.str "")) ∧
          (∀ img, variant.featured_image = some img →
            Row.get row "Variant Image" = some img.src)) ∧
      (variants ≠ [] →
        ∃ row, rows[0]? = some row ∧
          (images = [] →
            Row.get row "Image Src" = some (.str "") ∧
            Row.get row "Image Alt Text" = some (.str "")) ∧
          (∀ (img : Image) (rest : List Image), images = img :: rest →
            (img.src = .undefined → Row.get row "Image Src" = some (.str "")) ∧
            (img.alt = .undefined → Row.get row "Image Alt Text" = some (.str "")))) := by
  obtain ⟨rows, h1, h2, h3⟩ := mapProductToCsvRow_rows product variants tags images options
    hvariants htags himages hoptions
  refine ⟨rows, h1, h2, ?_, ?_⟩
  · intro k variant hk
    refine ⟨_, h3 k variant hk, ?_, ?_⟩
    · intro hf
      rw [get_optionsForEach_fixed _ _ (by decide)]
      simp [literalColumns, Row.get, hf]
    · intro img hf
      rw [get_optionsForEach_fixed _ _ (by decide)]
      simp [literalColumns, Row.get, hf]
  · intro hne
    obtain ⟨v, more, rfl⟩ := List.exists_cons_of_ne_nil hne
    refine ⟨_, h3 0 v (by simp), ?_, ?_⟩
    · intro hi
      subst hi
      constructor <;>
      · rw [get_optionsForEach_fixed _ _ (by decide)]
        simp [literalColumns, Row.get, optChain, JsVal.or, JsVal.truthy]
    · intro img rest hi
      subst hi
      constructor <;>
      · intro hu
        rw [get_optionsForEach_fixed _ _ (by decide)]
        simp [literalColumns, Row.get, optChain, JsVal.or, JsVal.truthy, hu]

/-- Witness for C10: a product whose only image has neither `src` nor `alt`,
with a first variant that has no featured image. -/
theorem mapProductToCsvRow_missing_images_witness :
    ∃ rows row, mapProductToCsvRow sampleProductBareImage = .ok rows ∧ rows.length = 3 ∧
      rows[0]? = some row ∧
      Row.get row "Variant Image" = some (.str "") ∧
      Row.get row "Image Src" = some (.str "") ∧
      Row.get row "Image Alt Text" = some (.str "") := by
  obtain ⟨rows, h1, h2, h3, h4⟩ := mapProductToCsvRow_missing_images sampleProductBareImage
    [sampleVariant, sampleVariantBlue, sampleVariant] ["cotton", "summer"]
    [{ src := .undefined, alt := .undefined }]
    [{ name := .str "Color" }, { name := .str "Size" }] rfl rfl rfl rfl
  obtain ⟨row, hr, hv, _⟩ := h3 0 sampleVariant rfl
  obtain ⟨row2, hr2, _, hi⟩ := h4 (by decide)
  have e : row2 = row := by rw [hr] at hr2; injection hr2 with hr2; exact hr2.symm
  subst e
  have c := hi _ [] rfl
  exact ⟨rows, row2, h1, h2, hr, hv rfl, c.1 rfl, c.2 rfl⟩

/-- The mapper does throw on a malformed payload: a product without a
`variants` array, or one with a variant but without an `images` array. -/
theorem mapProductToCsvRow_throws_on_missing_arrays (product : Product) :
    (product.variants = none → ∃ e, mapProductToCsvRow product = .error e) ∧
    (∀ (variant : Variant) (rest : List Variant), product.variants = some (variant :: rest) →
      product.images = none → ∃ e, mapProductToCsvRow product = .error e) := by
  constructor
  · intro h
    refine ⟨.typeError "Cannot read properties of undefined (reading 'forEach')", ?_⟩
    simp [mapProductToCsvRow, h]
  · intro variant rest hv hi
    cases ht : product.tags with
    | none =>
      refine ⟨.typeError "product.tags.join is not a function", ?_⟩
      simp [mapProductToCsvRow, hv, variantsForEach, variantRow, rowLiteral,
        joinTags, ht, bind, Except.bind]
    | some tags =>
      refine ⟨.typeError "Cannot read properties of undefined (reading '0')", ?_⟩
      simp [mapProductToCsvRow, hv, variantsForEach, variantRow, rowLiteral,
        joinTags, firstImage, ht, hi, bind, Except.bind, pure, Except.pure]

/-! ## Paginator -/

theorem ceilDiv_eq_ceil (a b : Nat) (hb : 0 < b) : ceilDiv a b = ⌈(a : ℚ) / (b : ℚ)⌉₊ := by
  have hbq : (0 : ℚ) < (b : ℚ) := by exact_mod_cast hb
  unfold ceilDiv
  apply le_antisymm
  · have h1 : (a : ℚ) / (b : ℚ) ≤ (⌈(a : ℚ) / (b : ℚ)⌉₊ : ℚ) := Nat.le_ceil _
    have h2 : (a : ℚ) ≤ (⌈(a : ℚ) / (b : ℚ)⌉₊ : ℚ) * (b : ℚ) := (div_le_iff₀ hbq).mp h1
    have h3 : a ≤ ⌈(a : ℚ) / (b : ℚ)⌉₊ * b := by exact_mod_cast h2
    have h4 : a + b - 1 < (⌈(a : ℚ) / (b : ℚ)⌉₊ + 1) * b := by
      rw [Nat.add_mul]
      omega
    exact Nat.le_of_lt_succ ((Nat.div_lt_iff_lt_mul hb).mpr h4)
  · apply Nat.ceil_le.mpr
    rw [div_le_iff₀ hbq]
    have h1 := Nat.div_add_mod (a + b - 1) b
    have h2 := Nat.mod_lt (a + b - 1) hb
    have h3 : a ≤ (a + b - 1) / b * b := by
      rw [Nat.mul_comm]
      omega
    exact_mod_cast h3

theorem requestedUrls_append (t1 t2 : List Event) :
    requestedUrls (t1 ++ t2) = requestedUrls t1 ++ requestedUrls t2 := by
  simp [requestedUrls, List.filterMap_append]

theorem openedFiles_append (t1 t2 : List Event) :
    openedFiles (t1 ++ t2) = openedFiles t1 ++ openedFiles t2 := by
  simp [openedFiles, List.filterMap_append]

theorem sleepCount_append (t1 t2 : List Event) :
    sleepCount (t1 ++ t2) = sleepCount t1 + sleepCount t2 := by
  simp [sleepCount, List.filter_append]

/-- The pages of the product loop: every page from `page` to `totalPages` is
requested, in increasing order, whatever the outcomes. -/
theorem fetchAllProducts_loop_urls (g : Globals) (w : World) (totalPages : Nat) :
    ∀ (n page : Nat) (products : List Product) (trace : List Event),
      page + n = totalPages + 1 →
      requestedUrls (fetchAllProducts.loop g w totalPages page products trace).trace =
        requestedUrls trace ++ (List.range' page n).map (productsUrl g) := by
  intro n
  induction n with
  | zero =>
    intro page products trace h
    rw [fetchAllProducts.loop]
    have : ¬ page ≤ totalPages := by omega
    simp [this]
  | succ n ih =>
    intro page products trace h
    rw [fetchAllProducts.loop]
    have hp : page ≤ totalPages := by omega
    simp only [hp, if_true]
    cases hw : w.productsPage page with
    | none =>
      simp only []
      rw [ih (page + 1) _ _ (by omega)]
      simp [requestedUrls_append, requestedUrls, List.range'_succ]
    | some ps =>
      simp only []
      rw [ih (page + 1) _ _ (by omega)]
      by_cases hlt : page < totalPages <;>
        simp [hlt, requestedUrls_append, requestedUrls, List.range'_succ]

/-- The products of the product loop: the lists of the pages that succeed,
appended in page order. -/
theorem fetchAllProducts_loop_items (g : Globals) (w : World) (totalPages : Nat) :
    ∀ (n page : Nat) (products : List Product) (trace : List Event),
      page + n = totalPages + 1 →
      (fetchAllProducts.loop g w totalPages page products trace).items =
        products ++ ((List.range' page n).map (fun p =>
          match w.productsPage p with
          | some pageProducts => pageProducts
          | none => [])).flatten := by
  intro n
  induction n with
  | zero =>
    intro page products trace h
    rw [fetchAllProducts.loop]
    have : ¬ page ≤ totalPages := by omega
    simp [this]
  | succ n ih =>
    intro page products trace h
    rw [fetchAllProducts.loop]
    have hp : page ≤ totalPages := by omega
    simp only [hp, if_true]
    cases hw : w.productsPage page with
    | none =>
      simp only []
      rw [ih (page + 1) _ _ (by omega)]
      simp [List.range'_succ, hw]
    | some ps =>
      simp only []
      rw [ih (page + 1) _ _ (by omega)]
      simp [List.range'_succ, hw]

theorem fetchAllProducts_loop_files (g : Globals) (w : World) (totalPages : Nat) :
    ∀ (n page : Nat) (products : List Product) (trace : List Event),
      page + n = totalPages + 1 →
      openedFiles (fetchAllProducts.loop g w totalPages page products trace).trace =
        openedFiles trace := by
  intro n
  induction n with
  | zero =>
    intro page products trace h
    rw [fetchAllProducts.loop]
    have : ¬ page ≤ totalPages := by omega
    simp [this]
  | succ n ih =>
    intro page products trace h
    rw [fetchAllProducts.loop]
    have hp : page ≤ totalPages := by omega
    simp only [hp, if_true]
    cases hw : w.productsPage page with
    | none =>
      simp only []
      rw [ih (page + 1) _ _ (by omega)]
      simp [openedFiles_append, openedFiles]
    | some ps =>
      simp only []
      rw [ih (page + 1) _ _ (by omega)]
      by_cases hlt : page < totalPages <;>
        simp [hlt, openedFiles_append, openedFiles]

/-- The delays of the product loop: one after each page that succeeds and is
not the last, none after a page that fails. -/
theorem fetchAllProducts_loop_sleeps (g : Globals) (w : World) (totalPages : Nat) :
    ∀ (n page : Nat) (products : List Product) (trace : List Event),
      page + n = totalPages + 1 →
      sleepCount (fetchAllProducts.loop g w totalPages page products trace).trace =
        sleepCount trace + ((List.range' page n).filter (fun p =>
          decide (p < totalPages) && (w.productsPage p).isSome)).length := by
  intro n
  induction n with
  | zero =>
    intro page products trace h
    rw [fetchAllProducts.loop]
    have : ¬ page ≤ totalPages := by omega
    simp [this]
  | succ n ih =>
    intro page products trace h
    rw [fetchAllProducts.loop]
    have hp : page ≤ totalPages := by omega
    simp only [hp, if_true]
    cases hw : w.productsPage page with
    | none =>
      simp only []
      rw [ih (page + 1) _ _ (by omega)]
      simp [sleepCount_append, sleepCount, List.range'_succ, hw]
    | some ps =>
      simp only []
      rw [ih (page + 1) _ _ (by omega)]
      by_cases hlt : page < totalPages
      · simp [hlt, sleepCount_append, sleepCount, List.range'_succ, hw, List.filter_cons]
        omega
      · simp [hlt, sleepCount_append, sleepCount, List.range'_succ, hw, List.filter_cons]

/-- C5: with a positive `productLimit`, `fetchAllProducts` computes
`totalPages = min(ceil(totalProducts / productLimit), pageLimit)` and requests
exactly the pages `1..totalPages`, in increasing order, whatever the outcome of
each request; so it requests at most `pageLimit` pages. -/
theorem fetchAllProducts_requests_pages (g : Globals) (w : World) (totalProducts : Nat)
    (hlimit : 0 < g.productLimit.value) :
    productPages g totalProducts =
        min ⌈(totalProducts : ℚ) / (g.productLimit.value : ℚ)⌉₊ g.pageLimit.value ∧
      requestedUrls (fetchAllProducts g w totalProducts).trace =
        (List.range' 1 (productPages g totalProducts)).map (productsUrl g) ∧
      (requestedUrls (fetchAllProducts g w totalProducts).trace).length =
        productPages g totalProducts ∧
      (requestedUrls (fetchAllProducts g w totalProducts).trace).length ≤ g.pageLimit.value := by
  have hpages : productPages g totalProducts =
      min ⌈(totalProducts : ℚ) / (g.productLimit.value : ℚ)⌉₊ g.pageLimit.value := by
    unfold productPages
    rw [if_neg (by omega), ceilDiv_eq_ceil _ _ hlimit]
  have hurls : requestedUrls (fetchAllProducts g w totalProducts).trace =
      (List.range' 1 (productPages g totalProducts)).map (productsUrl g) := by
    unfold fetchAllProducts
    rw [fetchAllProducts_loop_urls g w _ (productPages g totalProducts) 1 [] []
      (by omega)]
    simp [requestedUrls]
  refine ⟨hpages, hurls, ?_, ?_⟩
  · rw [hurls]; simp
  · rw [hurls, hpages]; simp

/-- Witness for C5, the two examples of the specification under the default
settings: 100 products at 25 per page, capped at 2 pages, give pages 1 and 2;
10 products at 25 per page give page 1 only. -/
theorem fetchAllProducts_requests_pages_witness :
    (productPages sampleGlobals 100 = 2 ∧
      requestedUrls (fetchAllProducts sampleGlobals quietWorld 100).trace =
        ["https://example.myshopify.com/products.json?limit=25&page=1",
         "https://example.myshopify.com/products.json?limit=25&page=2"]) ∧
    (productPages sampleGlobals 10 = 1 ∧
      requestedUrls (fetchAllProducts sampleGlobals quietWorld 10).trace =
        ["https://example.myshopify.com/products.json?limit=25&page=1"]) := by
  have h100 := fetchAllProducts_requests_pages sampleGlobals quietWorld 100 (by decide)
  have h10 := fetchAllProducts_requests_pages sampleGlobals quietWorld 10 (by decide)
  have e100 : productPages sampleGlobals 100 = 2 := by decide
  have e10 : productPages sampleGlobals 10 = 1 := by decide
  refine ⟨⟨e100, ?_⟩, ⟨e10, ?_⟩⟩
  · rw [h100.2.1, e100]; decide
  · rw [h10.2.1, e10]; decide

/-- C6: whatever pages succeed or fail, `fetchAllProducts` returns (its `try`
block catches every failure), it attempts every page `1..totalPages`, and its
result is the concatenation, in page order, of the product lists of the pages
that succeeded; it is empty when every page fails. -/
theorem fetchAllProducts_skips_failed_pages (g : Globals) (w : World) (totalProducts : Nat) :
    requestedUrls (fetchAllProducts g w totalProducts).trace =
        (List.range' 1 (productPages g totalProducts)).map (productsUrl g) ∧
      (fetchAllProducts g w totalProducts).items =
        ((List.range' 1 (productPages g totalProducts)).map (fun page =>
          match w.productsPage page with
          | some pageProducts => pageProducts
          | none => [])).flatten ∧
      ((∀ page, 1 ≤ page → page ≤ productPages g totalProducts →
          w.productsPage page = none) →
        (fetchAllProducts g w totalProducts).items = []) := by
  have hurls : requestedUrls (fetchAllProducts g w totalProducts).trace =
      (List.range' 1 (productPages g totalProducts)).map (productsUrl g) := by
    unfold fetchAllProducts
    rw [fetchAllProducts_loop_urls g w _ (productPages g totalProducts) 1 [] []
      (by omega)]
    simp [requestedUrls]
  have hitems : (fetchAllProducts g w totalProducts).items =
      ((List.range' 1 (productPages g totalProducts)).map (fun page =>
        match w.productsPage page with
        | some pageProducts => pageProducts
        | none => [])).flatten := by
    unfold fetchAllProducts
    rw [fetchAllProducts_loop_items g w _ (productPages g totalProducts) 1 [] []
      (by omega)]
    simp
  refine ⟨hurls, hitems, ?_⟩
  intro hall
  rw [hitems]
  simp only [List.flatten_eq_nil_iff, List.mem_map, List.mem_range'_1]
  rintro l ⟨page, ⟨h1, h2⟩, rfl⟩
  rw [hall page h1 (by omega)]

/-- Witness for C6: page 2 of 3 fails, pages 1 and 3 are still requested and
their products are returned in order. -/
theorem fetchAllProducts_skips_failed_pages_witness :
    requestedUrls (fetchAllProducts { sampleGlobals with pageLimit := { text := "3", value := 3 } }
        secondPageFails 100).trace =
      ["https://example.myshopify.com/products.json?limit=25&page=1",
       "https://example.myshopify.com/products.json?limit=25&page=2",
       "https://example.myshopify.com/products.json?limit=25&page=3"] ∧
    (fetchAllProducts { sampleGlobals with pageLimit := { text := "3", value := 3 } }
        secondPageFails 100).items = [sampleProduct, sampleProduct] := by
  have h := fetchAllProducts_skips_failed_pages
    { sampleGlobals with pageLimit := { text := "3", value := 3 } } secondPageFails 100
  have e : productPages { sampleGlobals with pageLimit := { text := "3", value := 3 } } 100 = 3 := by
    decide
  rw [e] at h
  refine ⟨?_, ?_⟩
  · rw [h.1]; decide
  · rw [h.2.1]; decide

/-- C7 fails on the code: with two pages of which the first fails, both
pagination loops issue the two requests back to back, with no delay between
them (the delay sits inside the `try` block, after the request). -/
theorem page_delay_skipped_after_failed_fetch :
    ((fetchAllProducts sampleGlobals firstPageFails 100).trace =
        [Event.httpGet "https://example.myshopify.com/products.json?limit=25&page=1",
         Event.error "Error fetching products for page 1:",
         Event.httpGet "https://example.myshopify.com/products.json?limit=25&page=2",
         Event.log "Fetched page 2 of 2"] ∧
      sleepCount (fetchAllProducts sampleGlobals firstPageFails 100).trace = 0) ∧
    ((fetchCollections sampleGlobals firstPageFails 500).trace =
        [Event.httpGet "https://example.myshopify.com/collections.json?limit=250&page=1",
         Event.error "Error fetching collections for page 1:",
         Event.httpGet "https://example.myshopify.com/collections.json?limit=250&page=2",
         Event.log "Fetched collection page 2 of 2"] ∧
      sleepCount (fetchCollections sampleGlobals firstPageFails 500).trace = 0) := by
  have hp : productPages sampleGlobals 100 = 2 := by decide
  have hc : ceilDiv 500 250 = 2 := by decide
  have h1 : (fetchAllProducts sampleGlobals firstPageFails 100).trace =
      [Event.httpGet "https://example.myshopify.com/products.json?limit=25&page=1",
       Event.error "Error fetching products for page 1:",
       Event.httpGet "https://example.myshopify.com/products.json?limit=25&page=2",
       Event.log "Fetched page 2 of 2"] := by
    unfold fetchAllProducts
    rw [hp, fetchAllProducts.loop, if_pos (by decide)]
    have e1 : firstPageFails.productsPage 1 = none := rfl
    simp only [e1]
    rw [fetchAllProducts.loop, if_pos (by decide)]
    have e2 : firstPageFails.productsPage (1 + 1) = some [sampleProduct] := rfl
    simp only [e2]
    rw [fetchAllProducts.loop, if_neg (by decide)]
    decide
  have h2 : (fetchCollections sampleGlobals firstPageFails 500).trace =
      [Event.httpGet "https://example.myshopify.com/collections.json?limit=250&page=1",
       Event.error "Error fetching collections for page 1:",
       Event.httpGet "https://example.myshopify.com/collections.json?limit=250&page=2",
       Event.log "Fetched collection page 2 of 2"] := by
    unfold fetchCollections
    rw [hc, fetchCollections.loop, if_pos (by decide)]
    have e1 : firstPageFails.collectionsPage 1 = none := rfl
    simp only [e1]
    rw [fetchCollections.loop, if_pos (by decide)]
    have e2 : firstPageFails.collectionsPage (1 + 1) =
        some [{ handle := "sale", title := "Sale", products_count := 4 }] := rfl
    simp only [e2]
    rw [fetchCollections.loop, if_neg (by decide)]
    decide
  refine ⟨⟨h1, ?_⟩, ⟨h2, ?_⟩⟩
  · rw [h1]; decide
  · rw [h2]; decide

/-! ## Start-up and the CSV writer -/

theorem shopifyStore_ok_baseUrl (baseUrl : Option String) (store : String)
    (h : shopifyStore baseUrl = .ok store) : ∃ url, baseUrl = some url ∧ url ≠ "" := by
  cases baseUrl with
  | none => simp [shopifyStore] at h
  | some url =>
    refine ⟨url, rfl, ?_⟩
    intro hu
    subst hu
    simp [shopifyStore, regexCapture] at h

theorem openedFiles_writes (rows : List Row) : openedFiles (rows.map Event.write) = [] := by
  induction rows with
  | nil => rfl
  | cons r rest ih => simp [openedFiles]

theorem writeProducts_files : ∀ (products : List Product) (trace : List Event),
    openedFiles (writeProducts products trace).trace = openedFiles trace := by
  intro products
  induction products with
  | nil => intro trace; rfl
  | cons p rest ih =>
    intro trace
    simp only [writeProducts]
    cases mapProductToCsvRow p with
    | error e => rfl
    | ok rows =>
      simp only []
      rw [ih, openedFiles_append, openedFiles_writes, List.append_nil]

theorem generateCSV_files (products : List Product) (fileName : String) :
    openedFiles (generateCSV products fileName).trace = [csvPath fileName] := by
  have h := writeProducts_files products [Event.createWriteStream (csvPath fileName)]
  unfold generateCSV
  simp only []
  cases hexit : (writeProducts products [Event.createWriteStream (csvPath fileName)]).exit with
  | completed =>
    simp only []
    rw [openedFiles_append, h]
    rfl
  | exited code =>
    simp only []
    rw [h]
    rfl
  | uncaught e =>
    simp only []
    rw [h]
    rfl

theorem fetchAllProducts_files (g : Globals) (w : World) (totalProducts : Nat) :
    openedFiles (fetchAllProducts g w totalProducts).trace = [] := by
  unfold fetchAllProducts
  rw [fetchAllProducts_loop_files g w _ (productPages g totalProducts) 1 [] [] (by omega)]
  rfl

theorem csvFileName_suffix (arg : Option String) (store : String) :
    ∃ stem, csvFileName arg store = stem ++ ".csv" := by
  unfold csvFileName
  cases arg with
  | none => exact ⟨_, rfl⟩
  | some name =>
    by_cases h : (name != "") = true
    · simp only [h, if_true]; exact ⟨_, rfl⟩
    · simp only [h]; exact ⟨_, rfl⟩

theorem default_csvPath (store : String) :
    csvPath ("shopify_products_export_" ++ store ++ ".csv") =
      "./shopify_products_export_" ++ store ++ ".csv.csv" := by
  have h1 : "./" ++ "shopify_products_export_" = "./shopify_products_export_" := by decide
  have h2 : ".csv" ++ ".csv" = ".csv.csv" := by decide
  unfold csvPath
  rw [← h1, ← h2]
  simp only [String.append_assoc]

/-- C8 fails on the code: started without a base URL the program throws a
`TypeError` while the module is evaluated (line 12 calls `match` on
`undefined`), before `main` is entered; nothing is printed by the program and
no request is made.  More generally, whenever line 12 succeeds the base URL is
a non-empty string, so the missing-argument check of `main` is never taken. -/
theorem program_without_base_url_throws :
    (∀ w : World, program ["node", "app.js"] w =
      { trace := [],
        exit := .uncaught
          (.typeError "Cannot read properties of undefined (reading 'match')") }) ∧
    (∀ (argv : List String) (store : String), shopifyStore argv[2]? = .ok store →
      ∃ url, argv[2]? = some url ∧ url ≠ "") :=
  ⟨fun _ => rfl, fun argv store h => shopifyStore_ok_baseUrl argv[2]? store h⟩

/-- C9: in the all-products export the one file opened is
`./{csvFileName}.csv`, where `csvFileName` already ends in `.csv`, so its name
ends in `.csv.csv`; with no custom name (argument absent or empty) it is
`./shopify_products_export_{store}.csv.csv`. -/
theorem all_products_file_double_extension (argv : List String) (w : World)
    (store : String) (data : StoreMeta)
    (hstore : shopifyStore argv[2]? = .ok store)
    (hmeta : w.storeMeta = some data)
    (hcount : 0 < data.published_products_count)
    (htype : w.exportType = "All Products") :
    openedFiles (program argv w).trace = [csvPath (csvFileName argv[6]? store)] ∧
      (∃ stem, csvFileName argv[6]? store = stem ++ ".csv" ∧
        csvPath (csvFileName argv[6]? store) = "./" ++ stem ++ ".csv.csv") ∧
      (argv[6]? = none ∨ argv[6]? = some "" →
        csvPath (csvFileName argv[6]? store) =
          "./shopify_products_export_" ++ store ++ ".csv.csv") := by
  refine ⟨?_, ?_, ?_⟩
  · obtain ⟨url, hurl, hne⟩ := shopifyStore_ok_baseUrl _ _ hstore
    have hguard : ¬ (argv[2]? = none ∨ argv[2]? = some "") := by
      rw [hurl]; simp [hne]
    simp only [program, hstore, main, hguard, if_false, fetchMetaData, hmeta, htype, if_true,
      gt_iff_lt, hcount]
    rw [openedFiles_append, openedFiles_append, generateCSV_files]
    rw [fetchAllProducts_files]
    simp [openedFiles, exportTypePrompt]
  · obtain ⟨stem, hs⟩ := csvFileName_suffix argv[6]? store
    refine ⟨stem, hs, ?_⟩
    rw [hs]
    simp [csvPath, String.append_assoc]
  · intro h
    have hcsv : csvFileName argv[6]? store = "shopify_products_export_" ++ store ++ ".csv" := by
      rcases h with h | h <;> simp [h, csvFileName]
    rw [hcsv]
    exact default_csvPath store

/-- Witness for C9: a run with the default file name and a run with the custom
name `out.csv`. -/
theorem all_products_file_double_extension_witness :
    openedFiles (program ["node", "app.js", "https://example.myshopify.com"] quietWorld).trace =
        ["./shopify_products_export_example.csv.csv"] ∧
      openedFiles (program ["node", "app.js", "https://example.myshopify.com", "25", "2",
          "2000", "out.csv"] quietWorld).trace = ["./out.csv.csv"] := by
  have h1 := all_products_file_double_extension
    ["node", "app.js", "https://example.myshopify.com"] quietWorld "example"
    { published_products_count := 100, published_collections_count := 3 }
    rfl rfl (by decide) rfl
  have h2 := all_products_file_double_extension
    ["node", "app.js", "https://example.myshopify.com", "25", "2", "2000", "out.csv"]
    quietWorld "example"
    { published_products_count := 100, published_collections_count := 3 }
    rfl rfl (by decide) rfl
  refine ⟨?_, ?_⟩
  · rw [h1.1]; decide
  · rw [h2.1]; decide

end ShopifyExport
